import Mathlib

/-!
Shallow embedding of the `MCDRCDModule` pricing engine
(`src/models/MCDRCDModule.js` of the trinity-API repository).

Numbers are modelled as exact rationals (`ℚ`); JavaScript `Date` values are
modelled by an explicit `Instant` carrying the epoch milliseconds plus the
calendar fields the engine reads.  MongoDB collections are modelled as lists;
`insertOne` conses a record, `updateOne` rewrites the first record matching
the query key.  Thrown validation errors are modelled with `Except`; every
stateful operation returns its result together with the engine state, the
state being unchanged when the operation throws before persisting.
-/

namespace Trinity

/-- JavaScript `Math.round(x * 100) / 100`: round half-up to 2 decimals. -/
def jround2 (x : ℚ) : ℚ := ((⌊x * 100 + 1/2⌋ : ℤ) : ℚ) / 100

/-- JavaScript `Math.round(x * 1000) / 1000`: round half-up to 3 decimals. -/
def jround3 (x : ℚ) : ℚ := ((⌊x * 1000 + 1/2⌋ : ℤ) : ℚ) / 1000

/-- A JavaScript `Date`: epoch milliseconds plus the calendar readings the
engine uses (`getMonth`, `getDate`, and the epoch value of
`setMonth(getMonth() - 1)`, which is calendar-dependent and therefore kept
as an uninterpreted field). -/
structure Instant where
  ms : ℚ
  month : Nat
  day : Nat
  monthAgoMs : ℚ
  deriving DecidableEq

/-- `config.mcd` of the module constructor. -/
structure MCDConfig where
  enabled : Bool
  updateFrequency : String
  sensitivityCoefficient : ℚ
  maxPriceIncrease : ℚ
  smoothingFactor : ℚ
  minimumSpendThreshold : ℚ
  platformWeights : List (String × ℚ)
  decayFactor : ℚ
  minMultiplier : ℚ
  maxMultiplier : ℚ
  deriving DecidableEq

/-- `config.rcd` of the module constructor (thresholds and the seasonal
multiplier table inlined as named fields). -/
structure RCDConfig where
  enabled : Bool
  maxDiscount : ℚ
  spendWeight : ℚ
  frequencyWeight : ℚ
  recencyWeight : ℚ
  minimumSpend : ℚ
  minimumVisits : Nat
  loyaltyTier1 : ℚ
  loyaltyTier2 : ℚ
  referralBonus : ℚ
  seasonalChristmas : ℚ
  seasonalBlackFriday : ℚ
  seasonalSummer : ℚ
  seasonalDefault : ℚ
  productCategoryWeights : List (String × ℚ)
  deriving DecidableEq

/-- `config.optimization` of the module constructor. -/
structure OptConfig where
  enabled : Bool
  targetROI : ℚ
  maxOverallIncrease : ℚ
  learningRate : ℚ
  deriving DecidableEq

structure Config where
  businessId : String
  mcd : MCDConfig
  rcd : RCDConfig
  optimization : OptConfig
  deriving DecidableEq

/-- A document of the `marketingSpend` collection. -/
structure SpendRecord where
  businessId : String
  platform : String
  amount : ℚ
  dateMs : ℚ
  platformWeight : ℚ
  deriving DecidableEq

/-- A document of the `transactions` collection.  `referralSource` is never
set by `recordTransaction`; it exists because `calculatePlatformRevenue`
matches on it. -/
structure Txn where
  businessId : String
  customerEmailHash : String
  amount : ℚ
  timestampMs : ℚ
  discountApplied : ℚ
  referralCodeUsed : Option String
  productIds : List String
  productCategories : List String
  seasonalMultiplier : ℚ
  isNewCustomer : Bool
  referralSource : Option String
  deriving DecidableEq

/-- A document of the `customers` collection. -/
structure Customer where
  businessId : String
  emailHash : String
  email : String
  totalSpend365 : ℚ
  purchaseCount365 : Nat
  firstPurchaseMs : ℚ
  lastPurchaseMs : ℚ
  currentDiscountPercentage : ℚ
  referralCode : String
  referralCount : Nat
  loyaltyTier : String
  customerSegment : String
  averagePurchase : ℚ
  lastCalculated : Option ℚ
  lastReferralDate : Option ℚ
  deriving DecidableEq

/-- A document of the `referralActivities` collection. -/
structure ReferralActivity where
  businessId : String
  referrerEmailHash : String
  referredEmailHash : String
  purchaseAmount : ℚ
  bonusApplied : ℚ
  timestampMs : ℚ
  deriving DecidableEq

/-- A document of the `priceAdjustments` collection (the audit record of
one MCD recalculation, `calculationDetails` inlined). -/
structure PriceAdjustment where
  businessId : String
  mcdMultiplier : ℚ
  effectiveFromMs : ℚ
  marketingSpendUsed : ℚ
  revenueInPeriod : ℚ
  roi : ℚ
  calculatedROI : ℚ
  status : String
  rawMultiplier : ℚ
  previousMultiplier : ℚ
  smoothedMultiplier : ℚ
  deriving DecidableEq

/-- An entry of the in-memory `platformPerformance` map. -/
structure PlatformPerf where
  totalSpend : ℚ
  totalRevenue : ℚ
  roi : ℚ
  lastUpdatedMs : ℚ
  deriving DecidableEq

/-- The MongoDB database: one list per collection, `insertOne` conses. -/
structure DB where
  marketingSpend : List SpendRecord
  transactions : List Txn
  customers : List Customer
  referralActivities : List ReferralActivity
  priceAdjustments : List PriceAdjustment
  deriving DecidableEq

/-- The engine instance: configuration, the cross-call mutable fields of the
class, and the database. -/
structure Engine where
  config : Config
  currentMCDMultiplier : ℚ
  lastMCDUpdate : Option ℚ
  platformPerformance : List (String × PlatformPerf)
  db : DB
  deriving DecidableEq

/-- A fresh engine as built by the constructor: multiplier `1.0`, no last
update, empty performance cache, over a given (pre-existing) database. -/
def initialEngine (config : Config) (db : DB) : Engine :=
  { config := config, currentMCDMultiplier := 1, lastMCDUpdate := none,
    platformPerformance := [], db := db }

/-- The constructor defaults (all `process.env` overrides absent). -/
def defaultConfig : Config :=
  { businessId := "default"
    mcd := { enabled := true, updateFrequency := "daily",
             sensitivityCoefficient := 1, maxPriceIncrease := 3/20,
             smoothingFactor := 3/10, minimumSpendThreshold := 100,
             platformWeights := [("google", 6/5), ("facebook", 11/10),
               ("instagram", 1), ("twitter", 9/10), ("email", 4/5)],
             decayFactor := 19/20, minMultiplier := 17/20, maxMultiplier := 3/2 }
    rcd := { enabled := true, maxDiscount := 20, spendWeight := 2,
             frequencyWeight := 3/2, recencyWeight := 6/5,
             minimumSpend := 50, minimumVisits := 2,
             loyaltyTier1 := 500, loyaltyTier2 := 1000, referralBonus := 5,
             seasonalChristmas := 6/5, seasonalBlackFriday := 13/10,
             seasonalSummer := 11/10, seasonalDefault := 1,
             productCategoryWeights := [("premium", 3/2), ("standard", 1),
               ("budget", 4/5)] }
    optimization := { enabled := true, targetROI := 3,
                      maxOverallIncrease := 1/4, learningRate := 1/10 } }

/-- Association-list lookup with the JavaScript `map[k] || 1.0` semantics:
an absent key or a weight of `0` (falsy) both yield `1.0`. -/
def lookupOr1 (l : List (String × ℚ)) (k : String) : ℚ :=
  match l.find? (fun p => p.1 == k) with
  | some p => if p.2 = 0 then 1 else p.2
  | none => 1

/-- JavaScript object property assignment `obj[k] = v`: replace the entry
if the key exists, otherwise append it. -/
def setAssoc {α : Type} (l : List (String × α)) (k : String) (v : α) :
    List (String × α) :=
  if l.any (fun p => p.1 == k) then
    l.map (fun p => if p.1 == k then (k, v) else p)
  else l ++ [(k, v)]

/-- MongoDB `updateOne`: rewrite the first list element matching the query. -/
def updateFirst {α : Type} (p : α → Bool) (f : α → α) : List α → List α
  | [] => []
  | x :: xs => if p x then f x :: xs else x :: updateFirst p f xs

/-- JavaScript `toLowerCase` (character-wise, structurally recursive). -/
def lowerStr (s : String) : String := String.mk (s.data.map Char.toLower)

/-- JavaScript `toUpperCase` (character-wise, structurally recursive). -/
def upperStr (s : String) : String := String.mk (s.data.map Char.toUpper)

/-- Strip leading and trailing whitespace from a character list
(JavaScript `String.prototype.trim`). -/
def trimChars (l : List Char) : List Char :=
  ((l.dropWhile Char.isWhitespace).reverse.dropWhile Char.isWhitespace).reverse

/-- `email.toLowerCase().trim()` — the normalization performed by
`hashEmail` before hashing. -/
def normalizeEmail (e : String) : List Char :=
  trimChars (e.data.map Char.toLower)

/-- The SHA-256 hex digest, kept abstract: any deterministic function of the
input characters. -/
abbrev HashFn := List Char → String

/-- `hashEmail`: SHA-256 of the lowercased, trimmed email. -/
def hashEmail (sha : HashFn) (email : String) : String :=
  sha (normalizeEmail email)

/-- `generateReferralCode`: first 8 hex digits of a hash of
`emailHash + businessId + Date.now()`, uppercased. -/
def generateReferralCode (sha : HashFn) (emailHash businessId : String)
    (now : Instant) : String :=
  upperStr (String.mk ((sha (emailHash ++ businessId ++ reprStr now.ms).data).data.take 8))

/-- The customer lookup key: same business, same hashed email. -/
def custKey (e : Engine) (emailHash : String) : Customer → Bool :=
  fun c => c.businessId == e.config.businessId && c.emailHash == emailHash

/-- The referrer lookup key: same business, referral code matched after
uppercasing the input (case-insensitive match). -/
def refCodeKey (e : Engine) (code : String) : Customer → Bool :=
  fun c => c.businessId == e.config.businessId && c.referralCode == upperStr code

/-- `getSeasonalMultiplier`: date-window based seasonal factor. -/
def getSeasonalMultiplier (cfg : Config) (now : Instant) : ℚ :=
  if now.month = 11 ∧ now.day > 20 then cfg.rcd.seasonalChristmas
  else if now.month = 10 ∧ now.day > 20 then cfg.rcd.seasonalBlackFriday
  else if 5 ≤ now.month ∧ now.month ≤ 8 then cfg.rcd.seasonalSummer
  else cfg.rcd.seasonalDefault

/-- `getPeriodFromFrequency`: the aggregation window `(start, end)` in epoch
milliseconds; an unrecognised frequency leaves `start = end = now`. -/
def getPeriodFromFrequency (frequency : String) (now : Instant) : ℚ × ℚ :=
  if frequency = "hourly" then (now.ms - 3600000, now.ms)
  else if frequency = "daily" then (now.ms - 86400000, now.ms)
  else if frequency = "weekly" then (now.ms - 604800000, now.ms)
  else if frequency = "monthly" then (now.monthAgoMs, now.ms)
  else (now.ms, now.ms)

/-- `shouldRecalculateMCD`: the time-gate debounce for MCD recalculation. -/
def shouldRecalculateMCD (e : Engine) (now : Instant) : Bool :=
  if !e.config.mcd.enabled then false
  else
    match e.lastMCDUpdate with
    | none => true
    | some t =>
      let hoursSinceUpdate := (now.ms - t) / 3600000
      if e.config.mcd.updateFrequency = "hourly" then decide (hoursSinceUpdate ≥ 1)
      else if e.config.mcd.updateFrequency = "daily" then decide (hoursSinceUpdate ≥ 24)
      else if e.config.mcd.updateFrequency = "weekly" then decide (hoursSinceUpdate ≥ 168)
      else if e.config.mcd.updateFrequency = "monthly" then decide (hoursSinceUpdate ≥ 720)
      else false

/-- The `marketingSpend` documents matched by the MCD aggregation window. -/
def periodSpendRecords (e : Engine) (now : Instant) : List SpendRecord :=
  let p := getPeriodFromFrequency e.config.mcd.updateFrequency now
  e.db.marketingSpend.filter fun s =>
    s.businessId == e.config.businessId
      && decide (p.1 ≤ s.dateMs) && decide (s.dateMs ≤ p.2)

/-- `$sum` of `amount * platformWeight` over the window (`total`). -/
def periodWeightedSpend (e : Engine) (now : Instant) : ℚ :=
  ((periodSpendRecords e now).map (fun s => s.amount * s.platformWeight)).sum

/-- `$sum` of raw `amount` over the window (`rawTotal`). -/
def periodRawSpend (e : Engine) (now : Instant) : ℚ :=
  ((periodSpendRecords e now).map (·.amount)).sum

/-- The `transactions` documents matched by the MCD aggregation window. -/
def periodTxns (e : Engine) (now : Instant) : List Txn :=
  let p := getPeriodFromFrequency e.config.mcd.updateFrequency now
  e.db.transactions.filter fun t =>
    t.businessId == e.config.businessId
      && decide (p.1 ≤ t.timestampMs) && decide (t.timestampMs ≤ p.2)

/-- Raw revenue sum over the window. -/
def periodRevenueSum (e : Engine) (now : Instant) : ℚ :=
  ((periodTxns e now).map (·.amount)).sum

/-- `revenue[0]?.total || 1`: the revenue used by the ROI computation, with
`1` substituted when the sum is zero or there are no matching documents. -/
def periodRevenue (e : Engine) (now : Instant) : ℚ :=
  let s := periodRevenueSum e now
  if s = 0 then 1 else s

/-- `calculateMCDMultiplier`: recompute the marketing-cost-displacement
multiplier from the period's spend and revenue, returning the new value and
the updated engine. -/
def calculateMCDMultiplier (e : Engine) (now : Instant) : ℚ × Engine :=
  if !e.config.mcd.enabled then (1, { e with currentMCDMultiplier := 1 })
  else
    let totalSpend := periodWeightedSpend e now
    let rawSpend := periodRawSpend e now
    let totalRevenue := periodRevenue e now
    if rawSpend < e.config.mcd.minimumSpendThreshold then
      (1, { e with currentMCDMultiplier := 1 })
    else
      let roi := totalRevenue / totalSpend
      let targetROI := e.config.optimization.targetROI
      let rawMultiplier :=
        if roi > targetROI then 1 - (1/10) * ((roi - targetROI) / targetROI)
        else 1 + e.config.mcd.sensitivityCoefficient * (targetROI - roi) / targetROI
      let previousMultiplier := e.currentMCDMultiplier
      let decayedPrevious := 1 + (previousMultiplier - 1) * e.config.mcd.decayFactor
      let smoothedMultiplier := e.config.mcd.smoothingFactor * rawMultiplier
        + (1 - e.config.mcd.smoothingFactor) * decayedPrevious
      let newMult := max e.config.mcd.minMultiplier
        (min smoothedMultiplier e.config.mcd.maxMultiplier)
      let adj : PriceAdjustment :=
        { businessId := e.config.businessId, mcdMultiplier := newMult,
          effectiveFromMs := now.ms, marketingSpendUsed := totalSpend,
          revenueInPeriod := totalRevenue, roi := roi, calculatedROI := roi,
          status := "active", rawMultiplier := rawMultiplier,
          previousMultiplier := previousMultiplier,
          smoothedMultiplier := smoothedMultiplier }
      (newMult,
        { e with currentMCDMultiplier := newMult, lastMCDUpdate := some now.ms,
                 db := { e.db with priceAdjustments := adj :: e.db.priceAdjustments } })

/-- `determineCustomerSegment`. -/
def determineCustomerSegment (cfg : Config) (totalSpend : ℚ)
    (purchaseCount : Nat) (isNew : Bool) : String :=
  if isNew then "new"
  else if totalSpend > cfg.rcd.loyaltyTier2 then "vip"
  else if totalSpend > cfg.rcd.loyaltyTier1 then "loyal"
  else if purchaseCount > 5 then "frequent"
  else "occasional"

/-- `getLoyaltyTier`. -/
def getLoyaltyTier (cfg : Config) (totalSpend : ℚ) : String :=
  if totalSpend > cfg.rcd.loyaltyTier2 then "gold"
  else if totalSpend > cfg.rcd.loyaltyTier1 then "silver"
  else "bronze"

/-- The customer's transactions in the trailing 365 days
(`timestamp >= oneYearAgo`, 365 days = 31536000000 ms). -/
def customerPeriodTxns (e : Engine) (emailHash : String) (now : Instant) :
    List Txn :=
  e.db.transactions.filter fun t =>
    t.businessId == e.config.businessId && t.customerEmailHash == emailHash
      && decide (now.ms - 31536000000 ≤ t.timestampMs)

/-- `$sum: amount` of the trailing-365-day aggregate. -/
def custTotalSpend365 (e : Engine) (emailHash : String) (now : Instant) : ℚ :=
  ((customerPeriodTxns e emailHash now).map (·.amount)).sum

/-- `$sum: 1` of the trailing-365-day aggregate. -/
def custCount365 (e : Engine) (emailHash : String) (now : Instant) : Nat :=
  (customerPeriodTxns e emailHash now).length

/-- `$max` over a list of timestamps (`none` on an empty match set). -/
def maxTs : List ℚ → Option ℚ
  | [] => none
  | x :: xs => match maxTs xs with
    | none => some x
    | some m => some (max x m)

/-- `$max: timestamp` of the trailing-365-day aggregate. -/
def custLastPurchase (e : Engine) (emailHash : String) (now : Instant) :
    Option ℚ :=
  maxTs ((customerPeriodTxns e emailHash now).map (·.timestampMs))

/-- `updateCustomerVector`: recompute the returning-customer discount from
the trailing-365-day aggregate, persist it on the customer record, and
return it.  30 days = 2592000000 ms. -/
def updateCustomerVector (e : Engine) (customer : Customer)
    (txn : Option Txn) (now : Instant) : ℚ × Engine :=
  if !e.config.rcd.enabled then (customer.currentDiscountPercentage, e)
  else
    let totalSpend := custTotalSpend365 e customer.emailHash now
    let count := custCount365 e customer.emailHash now
    let lastPurchase := custLastPurchase e customer.emailHash now
    let key := custKey e customer.emailHash
    if totalSpend < e.config.rcd.minimumSpend ∨ count < e.config.rcd.minimumVisits then
      let customers := updateFirst key (fun c =>
        { c with totalSpend365 := totalSpend, purchaseCount365 := count,
                 currentDiscountPercentage := 0,
                 lastCalculated := some now.ms }) e.db.customers
      (0, { e with db := { e.db with customers := customers } })
    else
      let recencyScore := match lastPurchase with
        | some t => max 0 (1 - (now.ms - t) / 2592000000)
        | none => 0
      let spendComponent := (totalSpend / 1000) * e.config.rcd.spendWeight
      let frequencyComponent := ((count : ℚ) / 10) * e.config.rcd.frequencyWeight
      let recencyComponent := recencyScore * e.config.rcd.recencyWeight
      let baseDiscount := (spendComponent + frequencyComponent + recencyComponent)
        / (e.config.rcd.spendWeight + e.config.rcd.frequencyWeight
            + e.config.rcd.recencyWeight)
      let seasonalMultiplier := match txn with
        | some t => if t.seasonalMultiplier = 0 then getSeasonalMultiplier e.config now
                    else t.seasonalMultiplier
        | none => getSeasonalMultiplier e.config now
      let adjustedDiscount := baseDiscount * seasonalMultiplier * 100
      let discount := min e.config.rcd.maxDiscount (jround2 adjustedDiscount)
      let customerSegment := determineCustomerSegment e.config totalSpend count false
      let loyaltyTier := getLoyaltyTier e.config totalSpend
      let customers := updateFirst key (fun c =>
        { c with totalSpend365 := totalSpend, purchaseCount365 := count,
                 averagePurchase := totalSpend / (count : ℚ),
                 currentDiscountPercentage := discount,
                 lastPurchaseMs := now.ms, lastCalculated := some now.ms,
                 customerSegment := customerSegment,
                 loyaltyTier := loyaltyTier }) e.db.customers
      (discount, { e with db := { e.db with customers := customers } })

/-- `processReferral`: credit the owner of a referral code (matched
case-insensitively, distinct from the purchaser) with the referral bonus. -/
def processReferral (e : Engine) (referralCode referredEmailHash : String)
    (purchaseAmount : ℚ) (now : Instant) : Engine :=
  match e.db.customers.find? (refCodeKey e referralCode) with
  | none => e
  | some referrer =>
    if referrer.emailHash != referredEmailHash then
      let bonus := e.config.rcd.referralBonus
      let newDiscount := min e.config.rcd.maxDiscount
        (referrer.currentDiscountPercentage + bonus)
      let customers := updateFirst (custKey e referrer.emailHash)
        (fun c => { c with referralCount := c.referralCount + 1,
                           currentDiscountPercentage := newDiscount,
                           lastReferralDate := some now.ms }) e.db.customers
      let activity : ReferralActivity :=
        { businessId := e.config.businessId,
          referrerEmailHash := referrer.emailHash,
          referredEmailHash := referredEmailHash,
          purchaseAmount := purchaseAmount,
          bonusApplied := bonus, timestampMs := now.ms }
      let db := { e.db with
                  customers := customers,
                  referralActivities := activity :: e.db.referralActivities }
      { e with db := db }
    else e

/-- The value returned by `recordTransaction`. -/
structure TxnResult where
  discount : ℚ
  referralCode : String
  transaction : Txn
  customerSegment : String
  loyaltyTier : String
  deriving DecidableEq

/-- `recordTransaction`: validate, upsert the customer, append the
transaction, process any referral code, then recompute the customer's
discount. -/
def recordTransaction (sha : HashFn) (e : Engine) (email : String)
    (amount : Option ℚ) (referralCode : Option String)
    (productIds productCategories : List String) (now : Instant) :
    Except String TxnResult × Engine :=
  match amount with
  | none => (.error "Email and amount are required", e)
  | some a =>
    if email = "" then (.error "Email and amount are required", e)
    else
      let emailHash := hashEmail sha email
      if a ≤ 0 then (.error "Amount must be positive", e)
      else
        let found := e.db.customers.find? (custKey e emailHash)
        let isNewCustomer := found.isNone
        let customer : Customer := match found with
          | some c => c
          | none =>
            { businessId := e.config.businessId, emailHash := emailHash,
              email := lowerStr email, totalSpend365 := 0, purchaseCount365 := 0,
              firstPurchaseMs := now.ms, lastPurchaseMs := now.ms,
              currentDiscountPercentage := 0,
              referralCode := generateReferralCode sha emailHash e.config.businessId now,
              referralCount := 0, loyaltyTier := "new",
              customerSegment := determineCustomerSegment e.config 0 0 true,
              averagePurchase := 0, lastCalculated := none,
              lastReferralDate := none }
        let e1 := if isNewCustomer then
            { e with db := { e.db with customers := customer :: e.db.customers } }
          else e
        let txn : Txn :=
          { businessId := e.config.businessId, customerEmailHash := emailHash,
            amount := a, timestampMs := now.ms,
            discountApplied := customer.currentDiscountPercentage,
            referralCodeUsed := referralCode, productIds := productIds,
            productCategories := productCategories,
            seasonalMultiplier := getSeasonalMultiplier e.config now,
            isNewCustomer := isNewCustomer, referralSource := none }
        let e2 := { e1 with db := { e1.db with transactions := txn :: e1.db.transactions } }
        let e3 := match referralCode with
          | some rc => if rc = "" then e2 else processReferral e2 rc emailHash a now
          | none => e2
        let r := updateCustomerVector e3 customer (some txn) now
        (.ok { discount := r.1, referralCode := customer.referralCode,
               transaction := txn, customerSegment := customer.customerSegment,
               loyaltyTier := customer.loyaltyTier }, r.2)

/-- `calculatePlatformRevenue`: revenue attributed to a platform in the last
30 days (2592000000 ms), matching on `referralSource`. -/
def calculatePlatformRevenue (e : Engine) (platform : String) (now : Instant) : ℚ :=
  ((e.db.transactions.filter fun t =>
      t.businessId == e.config.businessId
        && decide (now.ms - 2592000000 ≤ t.timestampMs)
        && t.referralSource == some platform).map (·.amount)).sum

/-- `optimizePlatformWeights`: multiplicatively move each platform's weight
toward its realized ROI relative to target, bounded to `[0.5, 2.0]`. -/
def optimizePlatformWeights (e : Engine) : Engine :=
  if !e.config.optimization.enabled then e
  else
    e.platformPerformance.foldl (fun acc entry =>
      if entry.2.roi > 0 then
        let currentWeight := lookupOr1 acc.config.mcd.platformWeights entry.1
        let performanceRatio := entry.2.roi / acc.config.optimization.targetROI
        let newWeight := currentWeight
          * (1 + acc.config.optimization.learningRate * (performanceRatio - 1))
        let bounded := max (1/2) (min 2 newWeight)
        let mcd := { acc.config.mcd with
                     platformWeights := setAssoc acc.config.mcd.platformWeights entry.1 bounded }
        { acc with config := { acc.config with mcd := mcd } }
      else acc) e

/-- `updatePlatformPerformance`: refresh the in-memory performance entry for
a platform and run the weight optimizer. -/
def updatePlatformPerformance (e : Engine) (platform : String) (amount : ℚ)
    (now : Instant) : Engine :=
  let platformKey := lowerStr platform
  let revenue := calculatePlatformRevenue e platformKey now
  let roi := if revenue > 0 then revenue / amount else 0
  let oldSpend := match e.platformPerformance.find? (fun p => p.1 == platformKey) with
    | some p => p.2.totalSpend
    | none => 0
  let perf : PlatformPerf :=
    { totalSpend := oldSpend + amount, totalRevenue := revenue, roi := roi,
      lastUpdatedMs := now.ms }
  let e1 := { e with platformPerformance := setAssoc e.platformPerformance platformKey perf }
  optimizePlatformWeights e1

/-- `recordMarketingSpend`: validate, append the spend record, refresh
platform performance, and recalculate the multiplier when the time gate is
open. -/
def recordMarketingSpend (e : Engine) (platform : String) (amount : Option ℚ)
    (now : Instant) : Except String SpendRecord × Engine :=
  match amount with
  | none => (.error "Platform and amount are required", e)
  | some a =>
    if platform = "" then (.error "Platform and amount are required", e)
    else if a < 0 then (.error "Amount must be positive", e)
    else
      let spend : SpendRecord :=
        { businessId := e.config.businessId, platform := lowerStr platform,
          amount := a, dateMs := now.ms,
          platformWeight := lookupOr1 e.config.mcd.platformWeights (lowerStr platform) }
      let e1 := { e with db := { e.db with marketingSpend := spend :: e.db.marketingSpend } }
      let e2 := updatePlatformPerformance e1 platform a now
      if shouldRecalculateMCD e2 now then (.ok spend, (calculateMCDMultiplier e2 now).2)
      else (.ok spend, e2)

/-- `getCustomerInfo`: look the customer up by hashed email. -/
def getCustomerInfo (sha : HashFn) (e : Engine) (email : String) : Option Customer :=
  e.db.customers.find? (custKey e (hashEmail sha email))

/-- `getCustomerDiscount`: return the cached discount, recomputing it when
the last calculation is more than 24 hours old. -/
def getCustomerDiscount (sha : HashFn) (e : Engine) (email : String)
    (now : Instant) : ℚ × Engine :=
  match e.db.customers.find? (custKey e (hashEmail sha email)) with
  | none => (0, e)
  | some customer =>
    match customer.lastCalculated with
    | some t =>
      let hoursSinceCalculation := (now.ms - t) / 3600000
      if hoursSinceCalculation > 24 then updateCustomerVector e customer none now
      else (customer.currentDiscountPercentage, e)
    | none => (customer.currentDiscountPercentage, e)

/-- The value returned by `calculateFinalPrice`. -/
structure PriceResult where
  basePrice : ℚ
  mcdMultiplier : ℚ
  priceAfterMCD : ℚ
  rcdDiscount : ℚ
  discountAmount : ℚ
  finalPrice : ℚ
  savings : ℚ
  customerSegment : String
  productCategory : String
  deriving DecidableEq

/-- Lines 536–554 of `calculateFinalPrice`: the pure price composition from
base price, multiplier and (category-weighted) discount, with the 70% floor
and the per-field rounding of the returned object. -/
def composeFinalPrice (basePrice mcdMultiplier rcdDiscount : ℚ)
    (customerSegment productCategory : String) : PriceResult :=
  let priceAfterMCD := basePrice * mcdMultiplier
  let discountAmount := priceAfterMCD * (rcdDiscount / 100)
  let finalPrice0 := priceAfterMCD - discountAmount
  let minPrice := basePrice * (7/10)
  let finalPrice := max minPrice finalPrice0
  { basePrice := basePrice, mcdMultiplier := jround3 mcdMultiplier,
    priceAfterMCD := jround2 priceAfterMCD, rcdDiscount := jround2 rcdDiscount,
    discountAmount := jround2 discountAmount, finalPrice := jround2 finalPrice,
    savings := jround2 discountAmount, customerSegment := customerSegment,
    productCategory := productCategory }

/-- `calculateFinalPrice`: validate the base price, refresh the multiplier
when the time gate is open, fetch and weight the customer discount, and
compose the final price. -/
def calculateFinalPrice (sha : HashFn) (e : Engine) (basePrice : ℚ)
    (customerEmail : Option String) (productCategory : String)
    (now : Instant) : Except String PriceResult × Engine :=
  if basePrice ≤ 0 then (.error "Base price must be positive", e)
  else
    let e1 := if shouldRecalculateMCD e now then (calculateMCDMultiplier e now).2 else e
    let mcdMultiplier := e1.currentMCDMultiplier
    match customerEmail with
    | some em =>
      if em = "" then
        (.ok (composeFinalPrice basePrice mcdMultiplier 0 "guest" productCategory), e1)
      else
        let r := getCustomerDiscount sha e1 em now
        let categoryWeight := lookupOr1 r.2.config.rcd.productCategoryWeights productCategory
        let rcdDiscount := r.1 * categoryWeight
        let customerSegment := match getCustomerInfo sha r.2 em with
          | some c => if c.customerSegment = "" then "guest" else c.customerSegment
          | none => "guest"
        (.ok (composeFinalPrice basePrice mcdMultiplier rcdDiscount customerSegment productCategory), r.2)
    | none =>
      (.ok (composeFinalPrice basePrice mcdMultiplier 0 "guest" productCategory), e1)

/-- One external call into the engine (the public entry points). -/
inductive EngineOp where
  | recordSpend (platform : String) (amount : Option ℚ) (now : Instant)
  | recordTxn (email : String) (amount : Option ℚ) (referralCode : Option String)
      (productIds productCategories : List String) (now : Instant)
  | calcMCD (now : Instant)
  | calcPrice (basePrice : ℚ) (customerEmail : Option String)
      (productCategory : String) (now : Instant)
  | getDiscount (email : String) (now : Instant)

/-- Run one operation, keeping only the resulting engine state (a thrown
validation error leaves the state unchanged). -/
def runOp (sha : HashFn) (e : Engine) : EngineOp → Engine
  | .recordSpend platform amount now => (recordMarketingSpend e platform amount now).2
  | .recordTxn email amount rc pids pcats now =>
      (recordTransaction sha e email amount rc pids pcats now).2
  | .calcMCD now => (calculateMCDMultiplier e now).2
  | .calcPrice b em cat now => (calculateFinalPrice sha e b em cat now).2
  | .getDiscount em now => (getCustomerDiscount sha e em now).2

/-- Run a sequence of operations from a starting engine state. -/
def runOps (sha : HashFn) (e : Engine) (ops : List EngineOp) : Engine :=
  ops.foldl (runOp sha) e

/-! ### Concrete objects used by witnesses and counterexamples -/

/-- A concrete stand-in for the abstract SHA-256 digest. -/
def shaId : HashFn := fun l => String.mk l

/-- The default configuration with both periodic recalculation features
switched off (as a caller may configure). -/
def cfgOff : Config :=
  { defaultConfig with
    mcd := { defaultConfig.mcd with enabled := false },
    optimization := { defaultConfig.optimization with enabled := false } }

def emptyDB : DB :=
  { marketingSpend := [], transactions := [], customers := [],
    referralActivities := [], priceAdjustments := [] }

def t0 : Instant :=
  { ms := 1000000000000, month := 0, day := 5, monthAgoMs := 997408000000 }

/-! ### Rounding lemmas -/

theorem jround2_mono {x y : ℚ} (h : x ≤ y) : jround2 x ≤ jround2 y := by
  unfold jround2
  have hf : (⌊x * 100 + 1/2⌋ : ℤ) ≤ ⌊y * 100 + 1/2⌋ :=
    Int.floor_le_floor (by linarith)
  have : ((⌊x * 100 + 1/2⌋ : ℤ) : ℚ) ≤ ((⌊y * 100 + 1/2⌋ : ℤ) : ℚ) := by
    exact_mod_cast hf
  linarith

theorem jround2_gt (x : ℚ) : x - 1/200 < jround2 x := by
  unfold jround2
  have hf : x * 100 + 1/2 - 1 < ((⌊x * 100 + 1/2⌋ : ℤ) : ℚ) :=
    Int.sub_one_lt_floor (x * 100 + 1/2)
  linarith

theorem jround2_nonneg {x : ℚ} (h : 0 ≤ x) : 0 ≤ jround2 x := by
  unfold jround2
  have hf : (0 : ℤ) ≤ ⌊x * 100 + 1/2⌋ := by
    apply Int.floor_nonneg.mpr
    linarith
  have : (0 : ℚ) ≤ ((⌊x * 100 + 1/2⌋ : ℤ) : ℚ) := by exact_mod_cast hf
  linarith

/-- Evaluate `jround2` at a concrete rational by bracketing the floor. -/
theorem jround2_eq {x : ℚ} {z : ℤ} (h1 : (z : ℚ) ≤ x * 100 + 1/2)
    (h2 : x * 100 + 1/2 < z + 1) : jround2 x = (z : ℚ) / 100 := by
  unfold jround2
  rw [Int.floor_eq_iff.mpr ⟨by exact_mod_cast h1, h2⟩]

/-! ### Email-normalization lemmas (claim C8) -/

theorem toLower_of_whitespace {c : Char} (h : c.isWhitespace) :
    c.toLower = c := by
  simp only [Char.isWhitespace, Bool.or_eq_true, decide_eq_true_eq] at h
  rcases h with ((h | h) | h) | h <;> subst h <;> decide

theorem map_toLower_ws {l : List Char} (h : ∀ c ∈ l, c.isWhitespace) :
    l.map Char.toLower = l := by
  induction l with
  | nil => rfl
  | cons c cs ih =>
    simp only [List.map_cons]
    rw [toLower_of_whitespace (h c (List.mem_cons_self c cs)),
        ih (fun x hx => h x (List.mem_cons_of_mem c hx))]

theorem dropWhile_ws_of_all {l : List Char} (h : ∀ c ∈ l, c.isWhitespace) :
    l.dropWhile Char.isWhitespace = [] := by
  induction l with
  | nil => rfl
  | cons c cs ih =>
    rw [List.dropWhile_cons_of_pos (h c (List.mem_cons_self c cs))]
    exact ih fun x hx => h x (List.mem_cons_of_mem c hx)

theorem dropWhile_ws_append {a x : List Char} (h : ∀ c ∈ a, c.isWhitespace) :
    (a ++ x).dropWhile Char.isWhitespace = x.dropWhile Char.isWhitespace := by
  induction a with
  | nil => rfl
  | cons c cs ih =>
    rw [List.cons_append,
        List.dropWhile_cons_of_pos (h c (List.mem_cons_self c cs))]
    exact ih fun y hy => h y (List.mem_cons_of_mem c hy)

theorem trimChars_pad {a b x : List Char} (ha : ∀ c ∈ a, c.isWhitespace)
    (hb : ∀ c ∈ b, c.isWhitespace) :
    trimChars (a ++ x ++ b) = trimChars x := by
  unfold trimChars
  rw [List.append_assoc, dropWhile_ws_append ha, List.dropWhile_append]
  by_cases hx : (x.dropWhile Char.isWhitespace).isEmpty
  · rw [if_pos hx, dropWhile_ws_of_all hb]
    rw [List.isEmpty_iff] at hx
    rw [hx]
  · rw [if_neg hx, List.reverse_append]
    rw [dropWhile_ws_append (fun c hc => hb c (List.mem_reverse.mp hc))]

theorem map_toLower_of_forall₂ {s t : List Char}
    (h : List.Forall₂ (fun c d => c.toLower = d.toLower) s t) :
    s.map Char.toLower = t.map Char.toLower := by
  induction h with
  | nil => rfl
  | cons hcd _ ih => simp only [List.map_cons, hcd, ih]

/-- C8: `hashEmail` applied to any variant of an email differing only in
letter case or in leading/trailing whitespace yields the same hash — for
every digest function, padding a case-variant of the email with whitespace
does not change the hash; in particular
`hash(" Foo@Bar.com ") = hash("foo@bar.com")`. -/
theorem C8_hashEmail_case_whitespace_insensitive :
    (∀ (sha : HashFn) (wsl wsr s t : List Char),
      (∀ c ∈ wsl, c.isWhitespace) → (∀ c ∈ wsr, c.isWhitespace) →
      List.Forall₂ (fun c d => c.toLower = d.toLower) s t →
      hashEmail sha (String.mk (wsl ++ s ++ wsr)) = hashEmail sha (String.mk t)) ∧
    (∀ sha : HashFn,
      hashEmail sha " Foo@Bar.com " = hashEmail sha "foo@bar.com") := by
  constructor
  · intro sha wsl wsr s t hl hr hst
    unfold hashEmail normalizeEmail
    congr 1
    show trimChars ((wsl ++ s ++ wsr).map Char.toLower) = trimChars (t.map Char.toLower)
    rw [List.map_append, List.map_append, map_toLower_ws hl, map_toLower_ws hr,
        trimChars_pad hl hr]
    rw [map_toLower_of_forall₂ hst]
  · intro sha
    unfold hashEmail
    congr 1

/-- Witness for C8: the concrete pair from the specification, via the
general theorem. -/
theorem C8_witness :
    hashEmail shaId (String.mk ([' '] ++ "Foo@Bar.com".data ++ [' '])) =
      hashEmail shaId (String.mk "foo@bar.com".data) :=
  C8_hashEmail_case_whitespace_insensitive.1 shaId [' '] [' ']
    "Foo@Bar.com".data "foo@bar.com".data
    (by decide) (by decide)
    (by repeat first
          | exact List.Forall₂.nil
          | refine List.Forall₂.cons (by decide) ?_)

/-! ### Final-price composition lemmas (claims C1 and C10) -/

/-- Whatever multiplier and discount are in effect, any successful
`calculateFinalPrice` result is a price composition of the given base price
and category. -/
theorem calculateFinalPrice_ok_form (sha : HashFn) (e : Engine) (b : ℚ)
    (email : Option String) (cat : String) (now : Instant) (hb : 0 < b) :
    ∃ m d s, (calculateFinalPrice sha e b email cat now).1 =
      Except.ok (composeFinalPrice b m d s cat) := by
  unfold calculateFinalPrice
  rw [if_neg (not_le.mpr hb)]
  cases email with
  | none => exact ⟨_, _, _, rfl⟩
  | some em =>
    by_cases hem : em = ""
    · subst hem
      exact ⟨_, _, _, rfl⟩
    · simp only [if_neg hem]
      exact ⟨_, _, _, rfl⟩

/-- The composed final price is the rounded maximum of the floored and the
discounted price. -/
theorem composeFinalPrice_finalPrice (b m d : ℚ) (s c : String) :
    (composeFinalPrice b m d s c).finalPrice =
      jround2 (max (b * (7/10)) (b * m - b * m * (d / 100))) := rfl

/-- C1 (amended): for every base price `b > 0`, the `finalPrice` returned
by `calculateFinalPrice` is greater than `0.7 × b − 0.005`: the pre-rounding
price is floored at `0.7 × b`, and the returned value is that price rounded
half-up to 2 decimals, so it can fall short of `0.7 × b` only by strictly
less than half a cent — this holds for every customer email, product
category, engine state, RCD discount and MCD multiplier. -/
theorem C1_finalPrice_floor (sha : HashFn) (e : Engine) (b : ℚ)
    (email : Option String) (cat : String) (now : Instant)
    (res : PriceResult) (hb : 0 < b)
    (hok : (calculateFinalPrice sha e b email cat now).1 = Except.ok res) :
    b * (7/10) - 1/200 < res.finalPrice := by
  obtain ⟨m, d, s, hform⟩ := calculateFinalPrice_ok_form sha e b email cat now hb
  rw [hform] at hok
  injection hok with hres
  rw [← hres, composeFinalPrice_finalPrice]
  have h1 : jround2 (b * (7/10)) ≤
      jround2 (max (b * (7/10)) (b * m - b * m * (d / 100))) :=
    jround2_mono (le_max_left _ _)
  have h2 := jround2_gt (b * (7/10))
  linarith

/-- The engine state of the C1 counterexample: MCD recalculation disabled,
current multiplier `0.5`. -/
def e1Cex : Engine :=
  { initialEngine cfgOff emptyDB with currentMCDMultiplier := 1/2 }

/-- Evaluation of `calculateFinalPrice` at the C1 counterexample input. -/
theorem e1Cex_eval :
    calculateFinalPrice shaId e1Cex (251/250) (some "a@b.c") "standard" t0 =
      (Except.ok (composeFinalPrice (251/250) (1/2) 0 "guest" "standard"), e1Cex) := by
  norm_num [calculateFinalPrice, shouldRecalculateMCD, e1Cex, initialEngine, cfgOff,
    defaultConfig, emptyDB, getCustomerDiscount, getCustomerInfo, hashEmail, lookupOr1,
    List.find?]

/-- The composed price of the C1 counterexample: the floor
`0.7 × 1.004 = 0.7028` binds and rounds down to `0.70`. -/
theorem e1Cex_finalPrice :
    (composeFinalPrice (251/250) (1/2) 0 "guest" "standard").finalPrice = 7/10 := by
  rw [composeFinalPrice_finalPrice]
  have hmax : max ((251/250 : ℚ) * (7/10)) ((251/250) * (1/2) - (251/250) * (1/2) * (0/100))
      = 1757/2500 := by
    rw [max_eq_left (by norm_num)]
    norm_num
  rw [hmax, jround2_eq (z := 70) (by norm_num) (by norm_num)]
  norm_num

/-- Counterexample to C1 as stated: at base price `1.004` with the current
multiplier `0.5`, the pre-rounding price is floored at
`0.7 × 1.004 = 0.7028`, but the returned `finalPrice` is the rounded value
`0.70`, which is strictly below `0.7 × 1.004`. -/
theorem C1_counterexample :
    ((calculateFinalPrice shaId e1Cex (251/250) (some "a@b.c") "standard" t0).1.toOption.map
        PriceResult.finalPrice) = some (7/10) ∧
    (7/10 : ℚ) < (7/10) * (251/250) := by
  constructor
  · rw [e1Cex_eval]
    simp only [Except.toOption, Option.map_some']
    rw [e1Cex_finalPrice]
  · norm_num

/-- Witness for C1 (amended): the bound at the concrete counterexample
input, via the theorem. -/
theorem C1_witness :
    (251/250 : ℚ) * (7/10) - 1/200 <
      (composeFinalPrice (251/250) (1/2) 0 "guest" "standard").finalPrice := by
  have h := C1_finalPrice_floor shaId e1Cex (251/250) (some "a@b.c") "standard" t0
    (composeFinalPrice (251/250) (1/2) 0 "guest" "standard") (by norm_num)
    (by rw [e1Cex_eval])
  exact h

/-- C10 (amended): `discountAmount` and `savings` are both computed from the
pre-floor price `priceAfterMCD = b × m`; when the floor binds
(`b·m − discount < 0.7·b`) the returned `finalPrice` is `0.7·b` rounded to
2 decimals — which may still coincide with the rounded pre-floor price —
and when the floor does not bind, `finalPrice` equals the rounded
`priceAfterMCD − discountAmount`; every successful `calculateFinalPrice`
result has this composed form. -/
theorem C10_price_fields :
    (∀ (b m d : ℚ) (s c : String),
      (composeFinalPrice b m d s c).discountAmount = jround2 (b * m * (d / 100)) ∧
      (composeFinalPrice b m d s c).savings = (composeFinalPrice b m d s c).discountAmount ∧
      (b * m - b * m * (d / 100) < b * (7/10) →
        (composeFinalPrice b m d s c).finalPrice = jround2 (b * (7/10))) ∧
      (b * (7/10) ≤ b * m - b * m * (d / 100) →
        (composeFinalPrice b m d s c).finalPrice =
          jround2 (b * m - b * m * (d / 100)))) ∧
    (∀ (sha : HashFn) (e : Engine) (b : ℚ) (email : Option String)
        (cat : String) (now : Instant) (res : PriceResult), 0 < b →
      (calculateFinalPrice sha e b email cat now).1 = Except.ok res →
      ∃ m d s, res = composeFinalPrice b m d s cat) := by
  constructor
  · intro b m d s c
    refine ⟨rfl, rfl, fun h => ?_, fun h => ?_⟩
    · rw [composeFinalPrice_finalPrice, max_eq_left (le_of_lt h)]
    · rw [composeFinalPrice_finalPrice, max_eq_right h]
  · intro sha e b email cat now res hb hok
    obtain ⟨m, d, s, hform⟩ := calculateFinalPrice_ok_form sha e b email cat now hb
    rw [hform] at hok
    injection hok with hres
    exact ⟨m, d, s, hres.symm⟩

/-- The engine state of the C10 counterexample: multiplier `175/251`. -/
def e10Cex : Engine :=
  { initialEngine cfgOff emptyDB with currentMCDMultiplier := 175/251 }

/-- Evaluation of `calculateFinalPrice` at the C10 counterexample input. -/
theorem e10Cex_eval :
    calculateFinalPrice shaId e10Cex (251/250) none "standard" t0 =
      (Except.ok (composeFinalPrice (251/250) (175/251) 0 "guest" "standard"), e10Cex) := by
  norm_num [calculateFinalPrice, shouldRecalculateMCD, e10Cex, initialEngine, cfgOff,
    defaultConfig, emptyDB]

/-- The composed price of the C10 counterexample: the floor `0.7028` binds,
and rounds to exactly the pre-floor price `0.70`. -/
theorem e10Cex_finalPrice :
    (composeFinalPrice (251/250) (175/251) 0 "guest" "standard").finalPrice = 7/10 := by
  rw [composeFinalPrice_finalPrice]
  have hmax : max ((251/250 : ℚ) * (7/10))
      ((251/250) * (175/251) - (251/250) * (175/251) * (0/100)) = 1757/2500 := by
    rw [max_eq_left (by norm_num)]
    norm_num
  rw [hmax, jround2_eq (z := 70) (by norm_num) (by norm_num)]
  norm_num

/-- Counterexample to C10 as stated: at base price `1.004` and multiplier
`175/251` with no discount, the floor binds
(`priceAfterMCD − discountAmount = 0.7 < 0.7028`), yet the returned
`finalPrice` (`0.70`) still equals `priceAfterMCD − discountAmount`, so the
floor binding does not force the returned price to differ. -/
theorem C10_counterexample :
    ((calculateFinalPrice shaId e10Cex (251/250) none "standard" t0).1.toOption.map
        PriceResult.finalPrice) =
      some ((251/250) * (175/251) - (251/250) * (175/251) * (0 / 100)) ∧
    (251/250 : ℚ) * (175/251) - (251/250) * (175/251) * (0 / 100) <
      (251/250) * (7/10) := by
  constructor
  · rw [e10Cex_eval]
    simp only [Except.toOption, Option.map_some']
    rw [e10Cex_finalPrice]
    norm_num
  · norm_num

/-- Witness for C10 (amended): the floor-binding branch evaluated at the
counterexample input, via the theorem. -/
theorem C10_witness :
    (composeFinalPrice (251/250) (175/251) 0 "guest" "standard").finalPrice =
      jround2 ((251/250) * (7/10)) :=
  (C10_price_fields.1 (251/250) (175/251) 0 "guest" "standard").2.2.1 (by norm_num)

/-! ### Validation of non-positive amounts (claim C2) -/

/-- C2 (amended): `recordTransaction` and `calculateFinalPrice` reject every
amount `≤ 0` with a validation error, leaving the engine (and hence every
store) unchanged; `recordMarketingSpend` rejects only strictly negative
amounts the same way (an amount of exactly `0` is accepted, see the
counterexample). -/
theorem C2_validation (sha : HashFn) (e : Engine) (email platform : String)
    (rc : Option String) (pids pcats : List String) (em : Option String)
    (cat : String) (now : Instant) (a : ℚ) :
    (a ≤ 0 → email ≠ "" →
      recordTransaction sha e email (some a) rc pids pcats now =
        (Except.error "Amount must be positive", e)) ∧
    (a ≤ 0 →
      calculateFinalPrice sha e a em cat now =
        (Except.error "Base price must be positive", e)) ∧
    (a < 0 → platform ≠ "" →
      recordMarketingSpend e platform (some a) now =
        (Except.error "Amount must be positive", e)) := by
  refine ⟨fun ha hemail => ?_, fun ha => ?_, fun ha hplat => ?_⟩
  · simp only [recordTransaction, if_neg hemail, if_pos ha]
  · simp only [calculateFinalPrice, if_pos ha]
  · simp only [recordMarketingSpend, if_neg hplat, if_pos ha]

/-- Witness for C2 (amended): the three rejections at amount `−1` on a
fresh engine. -/
theorem C2_witness :
    recordTransaction shaId (initialEngine cfgOff emptyDB) "a@b.c" (some (-1))
        none [] [] t0 =
      (Except.error "Amount must be positive", initialEngine cfgOff emptyDB) ∧
    calculateFinalPrice shaId (initialEngine cfgOff emptyDB) (-1) none "standard" t0 =
      (Except.error "Base price must be positive", initialEngine cfgOff emptyDB) ∧
    recordMarketingSpend (initialEngine cfgOff emptyDB) "google" (some (-1)) t0 =
      (Except.error "Amount must be positive", initialEngine cfgOff emptyDB) := by
  have h := C2_validation shaId (initialEngine cfgOff emptyDB) "a@b.c" "google"
    none [] [] none "standard" t0 (-1)
  exact ⟨h.1 (by norm_num) (by decide), h.2.1 (by norm_num),
    h.2.2 (by norm_num) (by decide)⟩

/-! ### MCD multiplier recalculation (claims C3, C4, C5) -/

/-- The daily aggregation window at `t0`. -/
theorem period_daily :
    getPeriodFromFrequency "daily" t0 = (999913600000, 1000000000000) := by
  simp [getPeriodFromFrequency, t0]
  norm_num [Prod.ext_iff]

/-- A spend of `100` on the weight-`0.8` platform. -/
def spend3 : SpendRecord :=
  { businessId := "default", platform := "email", amount := 100,
    dateMs := 1000000000000, platformWeight := 4/5 }

/-- A period revenue transaction of `80`. -/
def txn3 : Txn :=
  { businessId := "default", customerEmailHash := "h", amount := 80,
    timestampMs := 1000000000000, discountApplied := 0, referralCodeUsed := none,
    productIds := [], productCategories := [], seasonalMultiplier := 1,
    isNewCustomer := true, referralSource := none }

/-- Engine whose period has raw spend `100` but weighted spend `80`. -/
def e3Cex : Engine := initialEngine defaultConfig
  { emptyDB with marketingSpend := [spend3], transactions := [txn3] }

theorem e3Cex_rawSpend : periodRawSpend e3Cex t0 = 100 := by
  norm_num [periodRawSpend, periodSpendRecords, period_daily, e3Cex,
    initialEngine, defaultConfig, emptyDB, spend3, List.filter]

theorem e3Cex_weightedSpend : periodWeightedSpend e3Cex t0 = 80 := by
  norm_num [periodWeightedSpend, periodSpendRecords, period_daily, e3Cex,
    initialEngine, defaultConfig, emptyDB, spend3, List.filter]

theorem e3Cex_result : (calculateMCDMultiplier e3Cex t0).1 = 6/5 := by
  norm_num [calculateMCDMultiplier, periodRawSpend, periodWeightedSpend, periodRevenue,
    periodRevenueSum, periodTxns, periodSpendRecords, period_daily, e3Cex,
    initialEngine, defaultConfig, emptyDB, spend3, txn3, List.filter]

theorem e3Cex_multiplier :
    (calculateMCDMultiplier e3Cex t0).2.currentMCDMultiplier = 6/5 := by
  norm_num [calculateMCDMultiplier, periodRawSpend, periodWeightedSpend, periodRevenue,
    periodRevenueSum, periodTxns, periodSpendRecords, period_daily, e3Cex,
    initialEngine, defaultConfig, emptyDB, spend3, txn3, List.filter]

/-- A spend of `90` on the weight-`1.2` platform. -/
def spend4 : SpendRecord :=
  { businessId := "default", platform := "google", amount := 90,
    dateMs := 1000000000000, platformWeight := 6/5 }

/-- A period revenue transaction of `108`. -/
def txn4 : Txn :=
  { businessId := "default", customerEmailHash := "h", amount := 108,
    timestampMs := 1000000000000, discountApplied := 0, referralCodeUsed := none,
    productIds := [], productCategories := [], seasonalMultiplier := 1,
    isNewCustomer := true, referralSource := none }

/-- Engine whose period has raw spend `90` but weighted spend `108`. -/
def e4Cex : Engine := initialEngine defaultConfig
  { emptyDB with marketingSpend := [spend4], transactions := [txn4] }

theorem e4Cex_weightedSpend : periodWeightedSpend e4Cex t0 = 108 := by
  norm_num [periodWeightedSpend, periodSpendRecords, period_daily, e4Cex,
    initialEngine, defaultConfig, emptyDB, spend4, List.filter]

theorem e4Cex_eval :
    calculateMCDMultiplier e4Cex t0 = (1, { e4Cex with currentMCDMultiplier := 1 }) := by
  norm_num [calculateMCDMultiplier, periodRawSpend, periodWeightedSpend, periodRevenue,
    periodRevenueSum, periodTxns, periodSpendRecords, period_daily, e4Cex,
    initialEngine, defaultConfig, emptyDB, spend4, txn4, List.filter]

/-- The ROI the recalculation computes: period revenue (with the `|| 1`
fallback) over platform-weighted spend. -/
def mcdROI (e : Engine) (now : Instant) : ℚ :=
  periodRevenue e now / periodWeightedSpend e now

/-- The raw multiplier of the specification: below 1 by
`0.1 × (roi − target)/target` when ROI exceeds target, above 1 by
`sensitivity × (target − roi)/target` otherwise. -/
def mcdRawMultiplier (e : Engine) (now : Instant) : ℚ :=
  let roi := mcdROI e now
  let targetROI := e.config.optimization.targetROI
  if roi > targetROI then 1 - (1/10) * ((roi - targetROI) / targetROI)
  else 1 + e.config.mcd.sensitivityCoefficient * (targetROI - roi) / targetROI

/-- The decayed previous multiplier `1 + (previous − 1) × decayFactor`. -/
def mcdDecayedPrevious (e : Engine) : ℚ :=
  1 + (e.currentMCDMultiplier - 1) * e.config.mcd.decayFactor

/-- The smoothed (pre-clamp) multiplier
`smoothingFactor × raw + (1 − smoothingFactor) × decayedPrevious`. -/
def mcdSmoothed (e : Engine) (now : Instant) : ℚ :=
  e.config.mcd.smoothingFactor * mcdRawMultiplier e now
    + (1 - e.config.mcd.smoothingFactor) * mcdDecayedPrevious e

/-- C3 (amended): if MCD is disabled, or the period's **raw** (unweighted)
marketing spend is below `minimumSpendThreshold`, `calculateMCDMultiplier`
returns exactly `1.0` and sets the current multiplier to `1.0`, leaving
everything else unchanged.  (The code compares the raw spend, not the
platform-weighted spend, against the threshold.) -/
theorem C3_disabled_or_below_threshold (e : Engine) (now : Instant) :
    (e.config.mcd.enabled = false →
      calculateMCDMultiplier e now = (1, { e with currentMCDMultiplier := 1 })) ∧
    (e.config.mcd.enabled = true →
      periodRawSpend e now < e.config.mcd.minimumSpendThreshold →
      calculateMCDMultiplier e now = (1, { e with currentMCDMultiplier := 1 })) := by
  constructor
  · intro h
    simp [calculateMCDMultiplier, h]
  · intro h hlt
    simp [calculateMCDMultiplier, h, hlt]

/-- Witness for C3 (amended): the disabled case and the below-threshold
case on concrete engines, via the theorem. -/
theorem C3_witness :
    calculateMCDMultiplier (initialEngine cfgOff emptyDB) t0 =
      (1, { initialEngine cfgOff emptyDB with currentMCDMultiplier := 1 }) ∧
    calculateMCDMultiplier (initialEngine defaultConfig emptyDB) t0 =
      (1, { initialEngine defaultConfig emptyDB with currentMCDMultiplier := 1 }) := by
  constructor
  · exact (C3_disabled_or_below_threshold (initialEngine cfgOff emptyDB) t0).1 rfl
  · apply (C3_disabled_or_below_threshold (initialEngine defaultConfig emptyDB) t0).2 rfl
    norm_num [periodRawSpend, periodSpendRecords, period_daily, initialEngine,
      defaultConfig, emptyDB, List.filter]

/-- Counterexample to C3 as stated: with one spend record of `100` on the
weight-`0.8` platform and period revenue `80`, the *weighted* spend (`80`)
is below the threshold (`100`), yet the recalculation does not return `1.0`
— it proceeds with the ROI formula (the guard uses the raw spend `100`). -/
theorem C3_counterexample :
    e3Cex.config.mcd.enabled = true ∧
    periodWeightedSpend e3Cex t0 < e3Cex.config.mcd.minimumSpendThreshold ∧
    (calculateMCDMultiplier e3Cex t0).1 = 6/5 ∧
    (calculateMCDMultiplier e3Cex t0).2.currentMCDMultiplier = 6/5 ∧
    (6/5 : ℚ) ≠ 1 := by
  refine ⟨rfl, ?_, e3Cex_result, e3Cex_multiplier, by norm_num⟩
  rw [e3Cex_weightedSpend]
  norm_num [e3Cex, initialEngine, defaultConfig]

/-- C4 (amended): on a recalculation where MCD is enabled, the **raw**
(unweighted) period spend reaches the threshold, and the weighted spend is
positive, the engine computes `roi = revenue / weightedSpend` (with
revenue replaced by `1` when the period revenue sum is zero), forms the raw
multiplier of the specification, smooths it against the decayed previous
multiplier, stores the full audit record, and returns the clamped smoothed
value. -/
theorem C4_roi_formula (e : Engine) (now : Instant)
    (h1 : e.config.mcd.enabled = true)
    (h2 : e.config.mcd.minimumSpendThreshold ≤ periodRawSpend e now)
    (_h3 : 0 < periodWeightedSpend e now) :
    (calculateMCDMultiplier e now).2.db.priceAdjustments =
      { businessId := e.config.businessId,
        mcdMultiplier := max e.config.mcd.minMultiplier
          (min (mcdSmoothed e now) e.config.mcd.maxMultiplier),
        effectiveFromMs := now.ms,
        marketingSpendUsed := periodWeightedSpend e now,
        revenueInPeriod := periodRevenue e now,
        roi := mcdROI e now, calculatedROI := mcdROI e now, status := "active",
        rawMultiplier := mcdRawMultiplier e now,
        previousMultiplier := e.currentMCDMultiplier,
        smoothedMultiplier := mcdSmoothed e now } :: e.db.priceAdjustments ∧
    (calculateMCDMultiplier e now).1 =
      max e.config.mcd.minMultiplier
        (min (mcdSmoothed e now) e.config.mcd.maxMultiplier) := by
  have hodd : ¬ periodRawSpend e now < e.config.mcd.minimumSpendThreshold :=
    not_lt.mpr h2
  constructor <;>
    simp [calculateMCDMultiplier, h1, hodd, mcdSmoothed, mcdRawMultiplier,
      mcdDecayedPrevious, mcdROI]

/-- Witness for C4 (amended): the audit record is produced on the concrete
engine `e3Cex` (raw spend `100` at the threshold, weighted spend `80`), via
the theorem. -/
theorem C4_witness :
    (calculateMCDMultiplier e3Cex t0).2.db.priceAdjustments ≠ [] := by
  have h := C4_roi_formula e3Cex t0 rfl
    (by rw [e3Cex_rawSpend]; norm_num [e3Cex, initialEngine, defaultConfig])
    (by rw [e3Cex_weightedSpend]; norm_num)
  rw [h.1]
  exact List.cons_ne_nil _ _

/-- Counterexample to C4 as stated: with one spend record of `90` on the
weight-`1.2` platform, the weighted spend (`108`) is at or above the
threshold (`100`), yet no ROI computation happens: the recalculation
returns the reset value `1.0` and stores no audit record, because the
guard uses the raw spend (`90 < 100`). -/
theorem C4_counterexample :
    e4Cex.config.mcd.enabled = true ∧
    e4Cex.config.mcd.minimumSpendThreshold ≤ periodWeightedSpend e4Cex t0 ∧
    (calculateMCDMultiplier e4Cex t0).1 = 1 ∧
    (calculateMCDMultiplier e4Cex t0).2.db.priceAdjustments = [] := by
  refine ⟨rfl, ?_, ?_, ?_⟩
  · rw [e4Cex_weightedSpend]
    norm_num [e4Cex, initialEngine, defaultConfig]
  · rw [e4Cex_eval]
  · rw [e4Cex_eval]
    rfl

/-- Counterexample to C2 as stated: `recordMarketingSpend` with amount `0`
(which is `≤ 0`) does not fail — it succeeds and persists a spend record. -/
theorem C2_counterexample :
    (recordMarketingSpend (initialEngine cfgOff emptyDB) "google" (some 0) t0).1.isOk
      = true ∧
    (recordMarketingSpend (initialEngine cfgOff emptyDB) "google" (some 0) t0).2.db.marketingSpend.length
      = 1 := by
  constructor <;>
    simp [recordMarketingSpend, updatePlatformPerformance, calculatePlatformRevenue,
      optimizePlatformWeights, setAssoc, shouldRecalculateMCD, initialEngine, cfgOff,
      defaultConfig, emptyDB, lookupOr1, Except.isOk, Except.toBool]


/-- The engine fields that govern the multiplier invariant: current value
and the configured clamp bounds. -/
def multTriple (e : Engine) : ℚ × ℚ × ℚ :=
  (e.currentMCDMultiplier, e.config.mcd.minMultiplier, e.config.mcd.maxMultiplier)

theorem foldl_fix {α β γ : Type _} (f : β → α → β) (g : β → γ)
    (h : ∀ b a, g (f b a) = g b) : ∀ (l : List α) (b : β), g (l.foldl f b) = g b := by
  intro l
  induction l with
  | nil => intro b; rfl
  | cons a l ih =>
    intro b
    rw [List.foldl_cons, ih, h]

theorem optimize_multTriple (e : Engine) :
    multTriple (optimizePlatformWeights e) = multTriple e := by
  unfold optimizePlatformWeights
  split
  · rfl
  · apply foldl_fix
    intro b a
    dsimp only
    split
    · rfl
    · rfl

theorem updatePP_multTriple (e : Engine) (p : String) (a : ℚ) (now : Instant) :
    multTriple (updatePlatformPerformance e p a now) = multTriple e := by
  unfold updatePlatformPerformance
  rw [optimize_multTriple]
  rfl

theorem calcMCD_config (e : Engine) (now : Instant) :
    (calculateMCDMultiplier e now).2.config = e.config := by
  unfold calculateMCDMultiplier
  split
  · rfl
  · dsimp only
    split
    · rfl
    · rfl

theorem calcMCD_bounds (e : Engine) (now : Instant)
    (hlo : e.config.mcd.minMultiplier ≤ 1) (hhi : 1 ≤ e.config.mcd.maxMultiplier) :
    e.config.mcd.minMultiplier ≤ (calculateMCDMultiplier e now).2.currentMCDMultiplier ∧
    (calculateMCDMultiplier e now).2.currentMCDMultiplier ≤ e.config.mcd.maxMultiplier := by
  unfold calculateMCDMultiplier
  split
  · exact ⟨hlo, hhi⟩
  · dsimp only
    split
    · exact ⟨hlo, hhi⟩
    · constructor
      · exact le_max_left _ _
      · exact max_le (hlo.trans hhi) (min_le_right _ _)

theorem UCV_multTriple (e : Engine) (c : Customer) (txn : Option Txn) (now : Instant) :
    multTriple (updateCustomerVector e c txn now).2 = multTriple e := by
  unfold updateCustomerVector
  split
  · rfl
  · dsimp only
    split
    · rfl
    · rfl

theorem processReferral_multTriple (e : Engine) (rc h : String) (a : ℚ) (now : Instant) :
    multTriple (processReferral e rc h a now) = multTriple e := by
  unfold processReferral
  split
  · rfl
  · dsimp only
    split
    · rfl
    · rfl

theorem getDiscount_multTriple (sha : HashFn) (e : Engine) (em : String) (now : Instant) :
    multTriple (getCustomerDiscount sha e em now).2 = multTriple e := by
  unfold getCustomerDiscount
  split
  · rfl
  · split
    · dsimp only
      split
      · exact UCV_multTriple _ _ _ _
      · rfl
    · rfl

theorem recordTxn_multTriple (sha : HashFn) (e : Engine) (em : String)
    (a : Option ℚ) (rc : Option String) (pids pcats : List String) (now : Instant) :
    multTriple (recordTransaction sha e em a rc pids pcats now).2 = multTriple e := by
  unfold recordTransaction
  split
  · rfl
  · split
    · rfl
    · dsimp only
      split
      · rfl
      · dsimp only
        rw [UCV_multTriple]
        split
        · split
          · split <;> rfl
          · rw [processReferral_multTriple]
            split <;> rfl
        · split <;> rfl

/-- The multiplier invariant: the configured clamp bounds are `lo`/`hi` and
the current multiplier lies between them. -/
def MultOK (lo hi : ℚ) (e : Engine) : Prop :=
  e.config.mcd.minMultiplier = lo ∧ e.config.mcd.maxMultiplier = hi ∧
    lo ≤ e.currentMCDMultiplier ∧ e.currentMCDMultiplier ≤ hi

theorem multOK_of_triple {lo hi : ℚ} {x e : Engine}
    (ht : multTriple x = multTriple e) (h : MultOK lo hi e) : MultOK lo hi x := by
  have h1 : x.currentMCDMultiplier = e.currentMCDMultiplier :=
    congrArg Prod.fst ht
  have h2 : x.config.mcd.minMultiplier = e.config.mcd.minMultiplier :=
    congrArg (fun t => t.2.1) ht
  have h3 : x.config.mcd.maxMultiplier = e.config.mcd.maxMultiplier :=
    congrArg (fun t => t.2.2) ht
  exact ⟨h2.trans h.1, h3.trans h.2.1, h1 ▸ h.2.2.1, h1 ▸ h.2.2.2⟩

theorem multOK_calcMCD {lo hi : ℚ} (hlo : lo ≤ 1) (hhi : 1 ≤ hi) {e : Engine}
    (h : MultOK lo hi e) (now : Instant) :
    MultOK lo hi (calculateMCDMultiplier e now).2 := by
  have hc := calcMCD_config e now
  have hb := calcMCD_bounds e now (h.1.symm ▸ hlo) (h.2.1.symm ▸ hhi)
  refine ⟨(hc ▸ h.1 : _), (hc ▸ h.2.1 : _), ?_, ?_⟩
  · exact h.1 ▸ hb.1
  · exact h.2.1 ▸ hb.2

theorem runOp_multOK (sha : HashFn) {lo hi : ℚ} (hlo : lo ≤ 1) (hhi : 1 ≤ hi)
    (e : Engine) (op : EngineOp) (h : MultOK lo hi e) :
    MultOK lo hi (runOp sha e op) := by
  cases op with
  | recordSpend p a now =>
    show MultOK lo hi (recordMarketingSpend e p a now).2
    unfold recordMarketingSpend
    split
    · exact h
    · split
      · exact h
      · split
        · exact h
        · dsimp only
          split
          · refine multOK_calcMCD hlo hhi (multOK_of_triple ?_ h) now
            exact (updatePP_multTriple _ _ _ _).trans rfl
          · refine multOK_of_triple ?_ h
            exact (updatePP_multTriple _ _ _ _).trans rfl
  | recordTxn em a rc pids pcats now =>
    exact multOK_of_triple (recordTxn_multTriple sha e em a rc pids pcats now) h
  | calcMCD now => exact multOK_calcMCD hlo hhi h now
  | calcPrice b em cat now =>
    show MultOK lo hi (calculateFinalPrice sha e b em cat now).2
    unfold calculateFinalPrice
    split
    · exact h
    · dsimp only
      have h1 : MultOK lo hi
          (if shouldRecalculateMCD e now = true then (calculateMCDMultiplier e now).2 else e) := by
        split
        · exact multOK_calcMCD hlo hhi h now
        · exact h
      split
      · split
        · exact h1
        · exact multOK_of_triple (getDiscount_multTriple sha _ _ now) h1
      · exact h1
  | getDiscount em now =>
    exact multOK_of_triple (getDiscount_multTriple sha e em now) h

/-- C5 (amended): for every configuration whose clamp interval contains
`1.0` (`minMultiplier ≤ 1 ≤ maxMultiplier`) and every sequence of engine
operations from a fresh engine over any database, the current MCD
multiplier stays within `[minMultiplier, maxMultiplier]` — including after
calls where MCD is disabled or spend is below threshold (which reset the
multiplier to `1.0`) and however extreme the computed ROI is. -/
theorem C5_multiplier_clamped (sha : HashFn) (cfg : Config) (db : DB)
    (ops : List EngineOp)
    (hlo : cfg.mcd.minMultiplier ≤ 1) (hhi : 1 ≤ cfg.mcd.maxMultiplier) :
    cfg.mcd.minMultiplier ≤ (runOps sha (initialEngine cfg db) ops).currentMCDMultiplier ∧
    (runOps sha (initialEngine cfg db) ops).currentMCDMultiplier ≤ cfg.mcd.maxMultiplier := by
  have main : ∀ (l : List EngineOp) (e : Engine),
      MultOK cfg.mcd.minMultiplier cfg.mcd.maxMultiplier e →
      MultOK cfg.mcd.minMultiplier cfg.mcd.maxMultiplier (l.foldl (runOp sha) e) := by
    intro l
    induction l with
    | nil => intro e he; exact he
    | cons op l ih =>
      intro e he
      exact ih _ (runOp_multOK sha hlo hhi e op he)
  have h := main ops (initialEngine cfg db) ⟨rfl, rfl, hlo, hhi⟩
  exact ⟨h.2.2.1, h.2.2.2⟩

/-- Witness for C5 (amended): the bounds after one recalculation under the
default configuration, via the theorem. -/
theorem C5_witness :
    defaultConfig.mcd.minMultiplier ≤
      (runOps shaId (initialEngine defaultConfig emptyDB)
        [EngineOp.calcMCD t0]).currentMCDMultiplier ∧
    (runOps shaId (initialEngine defaultConfig emptyDB)
        [EngineOp.calcMCD t0]).currentMCDMultiplier ≤
      defaultConfig.mcd.maxMultiplier :=
  C5_multiplier_clamped shaId defaultConfig emptyDB [EngineOp.calcMCD t0]
    (by norm_num [defaultConfig]) (by norm_num [defaultConfig])

/-- A configuration with `minMultiplier = 1.2 ≤ maxMultiplier = 1.5` whose
clamp interval does not contain `1.0`, and MCD disabled. -/
def cfgHigh : Config :=
  { defaultConfig with
    mcd := { defaultConfig.mcd with enabled := false, minMultiplier := 6/5 } }

/-- Counterexample to C5 as stated: with `minMultiplier = 1.2 ≤
maxMultiplier = 1.5` and MCD disabled, a recalculation sets the current
multiplier to `1.0`, strictly below `minMultiplier`. -/
theorem C5_counterexample :
    cfgHigh.mcd.minMultiplier ≤ cfgHigh.mcd.maxMultiplier ∧
    (runOps shaId (initialEngine cfgHigh emptyDB)
        [EngineOp.calcMCD t0]).currentMCDMultiplier <
      cfgHigh.mcd.minMultiplier := by
  constructor
  · norm_num [cfgHigh, defaultConfig]
  · norm_num [runOps, runOp, calculateMCDMultiplier, cfgHigh, defaultConfig,
      initialEngine, emptyDB, List.foldl]



/-! ### Referral processing and discount bounds (claims C6, C7, C9) -/

theorem find?_updateFirst {α : Type} (p : α → Bool) (f : α → α)
    (hf : ∀ x, p (f x) = p x) :
    ∀ l : List α, (updateFirst p f l).find? p = (l.find? p).map f := by
  intro l
  induction l with
  | nil => rfl
  | cons x xs ih =>
    by_cases hx : p x
    · rw [updateFirst, if_pos hx, List.find?_cons_of_pos _ ((hf x).trans hx),
          List.find?_cons_of_pos _ hx, Option.map_some']
    · rw [updateFirst, if_neg hx, List.find?_cons_of_neg _ hx, ih,
          List.find?_cons_of_neg _ hx]

theorem mem_updateFirst {α : Type} (p : α → Bool) (f : α → α) :
    ∀ (l : List α) (y : α), y ∈ updateFirst p f l →
      y ∈ l ∨ ∃ x, x ∈ l ∧ y = f x := by
  intro l
  induction l with
  | nil => intro y hy; exact absurd hy (List.not_mem_nil y)
  | cons x xs ih =>
    intro y hy
    by_cases hx : p x
    · rw [updateFirst, if_pos hx] at hy
      rcases List.mem_cons.mp hy with h | h
      · exact Or.inr ⟨x, List.mem_cons_self x xs, h⟩
      · exact Or.inl (List.mem_cons_of_mem x h)
    · rw [updateFirst, if_neg hx] at hy
      rcases List.mem_cons.mp hy with h | h
      · exact Or.inl (h ▸ List.mem_cons_self x xs)
      · rcases ih y h with h2 | ⟨z, hz, hyz⟩
        · exact Or.inl (List.mem_cons_of_mem x h2)
        · exact Or.inr ⟨z, List.mem_cons_of_mem x hz, hyz⟩

/-- C7: referral processing.  When the (case-insensitively matched) code
identifies an existing customer distinct from the purchaser, that
referrer's record gains the fixed bonus clamped at `maxDiscount`, its
referral count is incremented, and a referral-activity record is created;
when the code matches nobody, or resolves to the purchaser, the engine is
completely unchanged. -/
theorem C7_referral (e : Engine) (code buyer : String) (amt : ℚ) (now : Instant) :
    (e.db.customers.find? (refCodeKey e code) = none →
      processReferral e code buyer amt now = e) ∧
    (∀ r, e.db.customers.find? (refCodeKey e code) = some r → r.emailHash = buyer →
      processReferral e code buyer amt now = e) ∧
    (∀ r, e.db.customers.find? (refCodeKey e code) = some r → r.emailHash ≠ buyer →
      e.db.customers.find? (custKey e r.emailHash) = some r →
      (processReferral e code buyer amt now).db.referralActivities =
        { businessId := e.config.businessId, referrerEmailHash := r.emailHash,
          referredEmailHash := buyer, purchaseAmount := amt,
          bonusApplied := e.config.rcd.referralBonus, timestampMs := now.ms }
          :: e.db.referralActivities ∧
      (processReferral e code buyer amt now).db.customers.find? (custKey e r.emailHash) =
        some { r with referralCount := r.referralCount + 1,
                      currentDiscountPercentage := min e.config.rcd.maxDiscount
                        (r.currentDiscountPercentage + e.config.rcd.referralBonus),
                      lastReferralDate := some now.ms }) := by
  refine ⟨fun hnone => ?_, fun r hfind heq => ?_, fun r hfind hne huniq => ?_⟩
  · unfold processReferral
    rw [hnone]
  · unfold processReferral
    rw [hfind]
    dsimp only
    rw [if_neg]
    simp [heq]
  · unfold processReferral
    rw [hfind]
    dsimp only
    rw [if_pos (by simp [bne_iff_ne, hne])]
    refine ⟨rfl, ?_⟩
    dsimp only
    rw [find?_updateFirst (custKey e r.emailHash) (fun c =>
          { c with referralCount := c.referralCount + 1,
                   currentDiscountPercentage := min e.config.rcd.maxDiscount
                     (r.currentDiscountPercentage + e.config.rcd.referralBonus),
                   lastReferralDate := some now.ms }) (fun x => rfl),
        huniq, Option.map_some']

/-- Customer `A`: referral code `REFCODE1`, below both thresholds, current
discount `0`. -/
def custA : Customer :=
  { businessId := "default", emailHash := "hashA", email := "a@x.com",
    totalSpend365 := 0, purchaseCount365 := 0, firstPurchaseMs := 0,
    lastPurchaseMs := 0, currentDiscountPercentage := 0, referralCode := "REFCODE1",
    referralCount := 0, loyaltyTier := "bronze", customerSegment := "occasional",
    averagePurchase := 0, lastCalculated := none, lastReferralDate := none }

/-- Engine with the single customer `A` and no transactions. -/
def e6on : Engine := initialEngine defaultConfig { emptyDB with customers := [custA] }

/-- Witness for C7: customer `A`'s code `REFCODE1`, supplied lowercase on
customer `B`'s purchase, credits `A` with the bonus and logs the activity;
an unknown code and a self-referral leave the engine unchanged — via the
theorem. -/
theorem C7_witness :
    (processReferral e6on "refcode1" "hashB" 100 t0).db.referralActivities =
      [{ businessId := "default", referrerEmailHash := "hashA",
         referredEmailHash := "hashB", purchaseAmount := 100, bonusApplied := 5,
         timestampMs := 1000000000000 }] ∧
    (processReferral e6on "refcode1" "hashB" 100 t0).db.customers.find?
        (custKey e6on "hashA") =
      some { custA with
             referralCount := 1, currentDiscountPercentage := 5,
             lastReferralDate := some 1000000000000 } ∧
    processReferral e6on "wrongcode" "hashB" 100 t0 = e6on ∧
    processReferral e6on "refcode1" "hashA" 100 t0 = e6on := by
  have h := (C7_referral e6on "refcode1" "hashB" 100 t0).2.2 custA (by decide)
    (by decide) (by decide)
  have h5 : min e6on.config.rcd.maxDiscount
      (custA.currentDiscountPercentage + e6on.config.rcd.referralBonus) = 5 := by
    norm_num [e6on, custA, initialEngine, defaultConfig]
  rw [h5] at h
  refine ⟨h.1, h.2, ?_, ?_⟩
  · exact (C7_referral e6on "wrongcode" "hashB" 100 t0).1 (by decide)
  · exact (C7_referral e6on "refcode1" "hashA" 100 t0).2.1 custA (by decide) (by decide)

theorem custTotalSpend365_nonneg (e : Engine) (h : String) (now : Instant)
    (htx : ∀ t ∈ e.db.transactions, 0 ≤ t.amount) :
    0 ≤ custTotalSpend365 e h now := by
  apply List.sum_nonneg
  intro x hx
  obtain ⟨t, ht, rfl⟩ := List.mem_map.mp hx
  exact htx t (List.mem_of_mem_filter ht)

theorem getSeasonal_nonneg (cfg : Config) (now : Instant)
    (h1 : 0 ≤ cfg.rcd.seasonalChristmas) (h2 : 0 ≤ cfg.rcd.seasonalBlackFriday)
    (h3 : 0 ≤ cfg.rcd.seasonalSummer) (h4 : 0 ≤ cfg.rcd.seasonalDefault) :
    0 ≤ getSeasonalMultiplier cfg now := by
  unfold getSeasonalMultiplier
  split
  · exact h1
  · split
    · exact h2
    · split
      · exact h3
      · exact h4

/-- After `updateCustomerVector` with RCD enabled, the customer record found
under the customer's key stores exactly the returned discount, stamped with
the recalculation time. -/
theorem UCV_stored (e : Engine) (c : Customer) (txn : Option Txn) (now : Instant)
    (henabled : e.config.rcd.enabled = true) :
    ∀ c', (updateCustomerVector e c txn now).2.db.customers.find?
        (custKey e c.emailHash) = some c' →
      c'.currentDiscountPercentage = (updateCustomerVector e c txn now).1 ∧
      c'.lastCalculated = some now.ms := by
  intro c' hc'
  unfold updateCustomerVector at hc' ⊢
  rw [henabled] at hc' ⊢
  rw [if_neg (by simp)] at hc' ⊢
  dsimp only at hc' ⊢
  by_cases hcase : (custTotalSpend365 e c.emailHash now < e.config.rcd.minimumSpend ∨
      custCount365 e c.emailHash now < e.config.rcd.minimumVisits)
  · rw [if_pos hcase] at hc' ⊢
    dsimp only at hc'
    rw [find?_updateFirst] at hc'
    on_goal 2 => exact fun x => rfl
    cases hfind : List.find? (custKey e c.emailHash) e.db.customers with
    | none => rw [hfind] at hc'; exact absurd hc' (by simp)
    | some x =>
      rw [hfind, Option.map_some'] at hc'
      injection hc' with hx
      subst hx
      exact ⟨rfl, rfl⟩
  · rw [if_neg hcase] at hc' ⊢
    dsimp only at hc'
    rw [find?_updateFirst] at hc'
    on_goal 2 => exact fun x => rfl
    cases hfind : List.find? (custKey e c.emailHash) e.db.customers with
    | none => rw [hfind] at hc'; exact absurd hc' (by simp)
    | some x =>
      rw [hfind, Option.map_some'] at hc'
      injection hc' with hx
      subst hx
      exact ⟨rfl, rfl⟩

/-- C6 (amended): under a configuration with nonnegative weights, seasonal
multipliers, referral bonus and maximum discount, and positive weight sum:
the discount `updateCustomerVector` computes and stores lies within
`[0, maxDiscount]`; a customer whose trailing-365-day spend is below
`minimumSpend` or whose visit count is below `minimumVisits` gets exactly
`0` from `updateCustomerVector`; and `processReferral` keeps every stored
discount within `[0, maxDiscount]` — but a referral *can* set a
below-threshold customer's discount to the nonzero bonus (see the
counterexample), so the threshold-zero property holds only for
`updateCustomerVector`, not across referral crediting. -/
theorem C6_discount_bounds (e : Engine) (c : Customer) (txn : Option Txn)
    (code buyer : String) (amt : ℚ) (now : Instant)
    (hmax : 0 ≤ e.config.rcd.maxDiscount)
    (hsw : 0 ≤ e.config.rcd.spendWeight)
    (hfw : 0 ≤ e.config.rcd.frequencyWeight)
    (hrw : 0 ≤ e.config.rcd.recencyWeight)
    (hsum : 0 < e.config.rcd.spendWeight + e.config.rcd.frequencyWeight
      + e.config.rcd.recencyWeight)
    (hs1 : 0 ≤ e.config.rcd.seasonalChristmas)
    (hs2 : 0 ≤ e.config.rcd.seasonalBlackFriday)
    (hs3 : 0 ≤ e.config.rcd.seasonalSummer)
    (hs4 : 0 ≤ e.config.rcd.seasonalDefault)
    (htx : ∀ t ∈ e.db.transactions, 0 ≤ t.amount)
    (htxn : ∀ t, txn = some t → 0 ≤ t.seasonalMultiplier) :
    (e.config.rcd.enabled = true →
      0 ≤ (updateCustomerVector e c txn now).1 ∧
      (updateCustomerVector e c txn now).1 ≤ e.config.rcd.maxDiscount ∧
      (∀ c', (updateCustomerVector e c txn now).2.db.customers.find?
          (custKey e c.emailHash) = some c' →
        c'.currentDiscountPercentage = (updateCustomerVector e c txn now).1)) ∧
    (e.config.rcd.enabled = true →
      (custTotalSpend365 e c.emailHash now < e.config.rcd.minimumSpend ∨
        custCount365 e c.emailHash now < e.config.rcd.minimumVisits) →
      (updateCustomerVector e c txn now).1 = 0) ∧
    ((∀ x ∈ e.db.customers, 0 ≤ x.currentDiscountPercentage ∧
        x.currentDiscountPercentage ≤ e.config.rcd.maxDiscount) →
      0 ≤ e.config.rcd.referralBonus →
      ∀ c' ∈ (processReferral e code buyer amt now).db.customers,
        0 ≤ c'.currentDiscountPercentage ∧
        c'.currentDiscountPercentage ≤ e.config.rcd.maxDiscount) := by
  refine ⟨fun henabled => ⟨?_, ?_, fun c' hc' =>
      (UCV_stored e c txn now henabled c' hc').1⟩,
    fun henabled hcase => ?_, fun hall hbonus c' hc' => ?_⟩
  · unfold updateCustomerVector
    rw [henabled, if_neg (by simp)]
    dsimp only
    split
    · exact le_refl 0
    · refine le_min hmax (jround2_nonneg ?_)
      refine mul_nonneg (mul_nonneg ?_ ?_) (by norm_num)
      · refine div_nonneg (add_nonneg (add_nonneg ?_ ?_) ?_) hsum.le
        · exact mul_nonneg
            (div_nonneg (custTotalSpend365_nonneg e c.emailHash now htx) (by norm_num)) hsw
        · exact mul_nonneg (div_nonneg (Nat.cast_nonneg _) (by norm_num)) hfw
        · refine mul_nonneg ?_ hrw
          split
          · exact le_max_left 0 _
          · exact le_refl 0
      · split
        · split
          · exact getSeasonal_nonneg e.config now hs1 hs2 hs3 hs4
          · exact htxn _ rfl
        · exact getSeasonal_nonneg e.config now hs1 hs2 hs3 hs4
  · unfold updateCustomerVector
    rw [henabled, if_neg (by simp)]
    dsimp only
    split
    · exact hmax
    · exact min_le_left _ _
  · unfold updateCustomerVector
    rw [henabled, if_neg (by simp)]
    dsimp only
    rw [if_pos hcase]
  · unfold processReferral at hc'
    rcases hfind : e.db.customers.find? (refCodeKey e code) with _ | r
    · rw [hfind] at hc'
      exact hall c' hc'
    · rw [hfind] at hc'
      dsimp only at hc'
      by_cases hne : r.emailHash != buyer
      · rw [if_pos hne] at hc'
        dsimp only at hc'
        rcases mem_updateFirst _ _ _ c' hc' with h | ⟨x, hx, rfl⟩
        · exact hall c' h
        · have hr := hall r (List.mem_of_find?_eq_some hfind)
          constructor
          · exact le_min hmax (add_nonneg hr.1 hbonus)
          · exact min_le_left _ _
      · rw [if_neg hne] at hc'
        exact hall c' hc'

/-- Counterexample to C6 as stated: customer `A` is below both activity
thresholds (spend `0 < 50`, visits `0 < 2`), yet after a referral credit
their stored discount is the referral bonus `5`, not `0`. -/
theorem C6_counterexample :
    custTotalSpend365 e6on "hashA" t0 < e6on.config.rcd.minimumSpend ∧
    custCount365 e6on "hashA" t0 < e6on.config.rcd.minimumVisits ∧
    ((processReferral e6on "refcode1" "hashB" 100 t0).db.customers.map
        (fun x => x.currentDiscountPercentage)) = [5] ∧
    (5 : ℚ) ≠ 0 := by
  have hkey : refCodeKey e6on "refcode1" custA = true := by decide
  have hne : (custA.emailHash != "hashB") = true := by decide
  have hck : custKey e6on custA.emailHash custA = true := by decide
  refine ⟨?_, by decide, ?_, by norm_num⟩
  · norm_num [custTotalSpend365, customerPeriodTxns, e6on, initialEngine,
      defaultConfig, emptyDB, List.filter]
  · have h1 : e6on.db.customers = [custA] := rfl
    have h5 : min e6on.config.rcd.maxDiscount
        (custA.currentDiscountPercentage + e6on.config.rcd.referralBonus) = 5 := by
      norm_num [e6on, custA, initialEngine, defaultConfig]
    norm_num [processReferral, h1, List.find?, hkey, hne, hck, updateFirst, h5]

/-- Witness for C6 (amended): on the concrete engine `e6on`, customer `A`
(below both thresholds) gets discount exactly `0` from
`updateCustomerVector`, within `[0, maxDiscount]`, and referral processing
keeps all stored discounts within the bounds — via the theorem. -/
theorem C6_witness :
    (updateCustomerVector e6on custA none t0).1 = 0 ∧
    0 ≤ (updateCustomerVector e6on custA none t0).1 ∧
    (updateCustomerVector e6on custA none t0).1 ≤ e6on.config.rcd.maxDiscount ∧
    (∀ c' ∈ (processReferral e6on "refcode1" "hashB" 100 t0).db.customers,
      0 ≤ c'.currentDiscountPercentage ∧
      c'.currentDiscountPercentage ≤ e6on.config.rcd.maxDiscount) := by
  have h := C6_discount_bounds e6on custA none "refcode1" "hashB" 100 t0
    (by norm_num [e6on, initialEngine, defaultConfig])
    (by norm_num [e6on, initialEngine, defaultConfig])
    (by norm_num [e6on, initialEngine, defaultConfig])
    (by norm_num [e6on, initialEngine, defaultConfig])
    (by norm_num [e6on, initialEngine, defaultConfig])
    (by norm_num [e6on, initialEngine, defaultConfig])
    (by norm_num [e6on, initialEngine, defaultConfig])
    (by norm_num [e6on, initialEngine, defaultConfig])
    (by norm_num [e6on, initialEngine, defaultConfig])
    (by intro t ht; simp [e6on, initialEngine, emptyDB] at ht)
    (by intro t ht; exact absurd ht (by simp))
  have hall : ∀ x ∈ e6on.db.customers, 0 ≤ x.currentDiscountPercentage ∧
      x.currentDiscountPercentage ≤ e6on.config.rcd.maxDiscount := by
    intro x hx
    have hx1 : x = custA := by
      have : e6on.db.customers = [custA] := rfl
      rw [this] at hx
      exact List.mem_singleton.mp hx
    subst hx1
    constructor <;> norm_num [custA, e6on, initialEngine, defaultConfig]
  exact ⟨h.2.1 rfl (Or.inr (by decide)), (h.1 rfl).1, (h.1 rfl).2.1,
    h.2.2 hall (by norm_num [e6on, initialEngine, defaultConfig])⟩

/-- C9: `getCustomerDiscount` returns the cached stored discount unchanged
(and leaves the engine untouched) when the last recalculation is within the
past 24 hours; a read more than 24 hours after the last recalculation
delegates to `updateCustomerVector`, returning its result, which (with RCD
enabled) is persisted on the customer record with the new recalculation
timestamp. -/
theorem C9_cached_discount (sha : HashFn) (e : Engine) (email : String)
    (now : Instant) (c : Customer) (t : ℚ)
    (hfind : e.db.customers.find? (custKey e (hashEmail sha email)) = some c)
    (hlast : c.lastCalculated = some t) :
    ((now.ms - t) / 3600000 ≤ 24 →
      getCustomerDiscount sha e email now = (c.currentDiscountPercentage, e)) ∧
    (24 < (now.ms - t) / 3600000 →
      getCustomerDiscount sha e email now = updateCustomerVector e c none now ∧
      (e.config.rcd.enabled = true →
        ∀ c', (updateCustomerVector e c none now).2.db.customers.find?
            (custKey e c.emailHash) = some c' →
          c'.currentDiscountPercentage = (updateCustomerVector e c none now).1 ∧
          c'.lastCalculated = some now.ms)) := by
  constructor
  · intro hle
    unfold getCustomerDiscount
    rw [hfind]
    dsimp only
    rw [hlast]
    dsimp only
    rw [if_neg (not_lt.mpr hle)]
  · intro hgt
    refine ⟨?_, fun hen => UCV_stored e c none now hen⟩
    unfold getCustomerDiscount
    rw [hfind]
    dsimp only
    rw [hlast]
    dsimp only
    rw [if_pos hgt]

/-- Customer `A` keyed by the actual hash of `a@x.com`, last recalculated
at epoch `0`. -/
def custA9 : Customer :=
  { custA with emailHash := "a@x.com", lastCalculated := some 0 }

/-- Engine with the single customer `custA9`. -/
def e9 : Engine := initialEngine defaultConfig { emptyDB with customers := [custA9] }

/-- One hour past the epoch: within the 24-hour cache window of `custA9`. -/
def t1 : Instant := { ms := 3600000, month := 0, day := 5, monthAgoMs := 0 }

/-- Witness for C9: a stale read (more than 24h) delegates to
`updateCustomerVector`, and a fresh read (1h) returns the cached value with
the engine unchanged — via the theorem. -/
theorem C9_witness :
    getCustomerDiscount shaId e9 "a@x.com" t0 = updateCustomerVector e9 custA9 none t0 ∧
    getCustomerDiscount shaId e9 "a@x.com" t1 = (custA9.currentDiscountPercentage, e9) := by
  have hfind : e9.db.customers.find? (custKey e9 (hashEmail shaId "a@x.com")) =
      some custA9 := by decide
  constructor
  · exact ((C9_cached_discount shaId e9 "a@x.com" t0 custA9 0 hfind rfl).2
      (by norm_num [t0])).1
  · exact (C9_cached_discount shaId e9 "a@x.com" t1 custA9 0 hfind rfl).1
      (by norm_num [t1])

end Trinity
